import Mathlib

/-!
# Verification of the financial-tsf-archive core logic

Shallow embedding of the two core components of the repository:

* `apply_delisting_returns` / `apply_delisting_returns_alt` from
  `src/wrds_crsp_compustat/pull_CRSP_stock.py`, operating row-wise on
  monthly security-return records;
* `Dataset` and its static method `organize_time_series` from
  `models/dataset.py`.

Modelling conventions:

* A nullable float column entry (pandas `NaN`) is `Option ℚ`; the delisting
  code `dlstcd` is `Option ℤ` (SQL returns integral codes, possibly null).
* A pandas frame of security-return records is a `List SecurityReturnRecord`;
  all column operations in the source are elementwise, so they become `List.map`.
* Dates are `ℤ` (an ordinal); a raw, not yet converted index entry is a
  `RawDate`, either convertible to a date or not; `pd.to_datetime` on an index
  is `List.mapM parseDate`, failing (raising `ValueError`) iff some entry fails.
* Exceptions are `Except PyError`.
* pandas `&` between a boolean column and a float column casts the float
  column to boolean (`NaN` → `False`, `0` → `False`, nonzero → `True`); a
  boolean column compared with an integer treats `False`/`True` as `0`/`1`.
  These casts are spelled out where the source relies on them.
-/

/-- One monthly security-return record (row of the CRSP monthly frame):
raw return `ret`, raw capital-gain return `retx`, delisting return `dlret`,
delisting capital-gain return `dlretx`, delisting code `dlstcd`. -/
structure SecurityReturnRecord where
  ret : Option ℚ
  retx : Option ℚ
  dlret : Option ℚ
  dlretx : Option ℚ
  dlstcd : Option ℤ
deriving DecidableEq, Repr

/-- The list `[500, 520, 580, 584] + list(range(551, 575))` from the source. -/
def s1List : List ℤ := [500, 520, 580, 584] ++ (List.range 24).map (fun (i : ℕ) => 551 + (i : ℤ))

/-- `df["dlstcd"].isin([500, 520, 580, 584] + list(range(551, 575)))` at one row:
a null code is in no list. -/
def dlstcdInS1 (c : Option ℤ) : Bool :=
  match c with
  | none => false
  | some v => decide (v ∈ s1List)

/-- pandas cast of a float column entry to boolean, as performed by `&` when its
left operand is a boolean column: `NaN` → `False`, `0` → `False`, nonzero → `True`. -/
def floatColAsBool (c : Option ℤ) : Bool :=
  match c with
  | none => false
  | some v => decide (v ≠ 0)

/-- First `np.select` condition for the `dlret` column:
`df["dlstcd"].isin([500, 520, 580, 584] + list(range(551, 575))) & df["dlret"].isna()`. -/
def retCond1 (r : SecurityReturnRecord) : Bool :=
  dlstcdInS1 r.dlstcd && r.dlret.isNone

/-- Second `np.select` condition for the `dlret` column, exactly as the source
evaluates it.  The source writes
`df["dlret"].isna() & df["dlstcd"].notna() & df["dlstcd"] >= 200`;
since `&` binds tighter than `>=` in Python this is
`(df["dlret"].isna() & df["dlstcd"].notna() & df["dlstcd"]) >= 200`:
the float column `dlstcd` is cast to boolean by `&`, and the resulting boolean
column is compared with `200` as `0`/`1`. -/
def retCond2 (r : SecurityReturnRecord) : Bool :=
  decide (((if r.dlret.isNone && r.dlstcd.isSome && floatColAsBool r.dlstcd
            then (1 : ℤ) else 0)) ≥ 200)

/-- First `np.select` condition for the `dlretx` column. -/
def retxCond1 (r : SecurityReturnRecord) : Bool :=
  dlstcdInS1 r.dlstcd && r.dlretx.isNone

/-- Second `np.select` condition for the `dlretx` column (same parse as `retCond2`,
with `dlretx` in place of `dlret`). -/
def retxCond2 (r : SecurityReturnRecord) : Bool :=
  decide (((if r.dlretx.isNone && r.dlstcd.isSome && floatColAsBool r.dlstcd
            then (1 : ℤ) else 0)) ≥ 200)

/-- The `np.select` assignment to `df["dlret"]`: first matching condition wins,
the third condition is the constant `True` choosing the old `dlret` value. -/
def imputeDlret (r : SecurityReturnRecord) : Option ℚ :=
  if retCond1 r then some (-3/10)
  else if retCond2 r then some (-1)
  else r.dlret

/-- The `np.select` assignment to `df["dlretx"]`. -/
def imputeDlretx (r : SecurityReturnRecord) : Option ℚ :=
  if retxCond1 r then some (-3/10)
  else if retxCond2 r then some (-1)
  else r.dlretx

/-- One row of `apply_delisting_returns`: the two `np.select` assignments update
`dlret`/`dlretx`, then `df["ret"] = df["ret"].fillna(df["dlret"])` and
`df["retx"] = df["retx"].fillna(df["dlretx"])` backfill the primary returns from
the already-updated delisting columns (`fillna` is `Option.or`). -/
def adjustRecord (r : SecurityReturnRecord) : SecurityReturnRecord :=
  { r with
    dlret := imputeDlret r
    dlretx := imputeDlretx r
    ret := r.ret.or (imputeDlret r)
    retx := r.retx.or (imputeDlretx r) }

/-- `apply_delisting_returns`: every column operation in the source is
elementwise, so the frame transformation is the row map. -/
def apply_delisting_returns (df : List SecurityReturnRecord) : List SecurityReturnRecord :=
  df.map adjustRecord

/-- State of the caller's frame after a call to `apply_delisting_returns`: the
source assigns columns directly on its argument (`df["dlret"] = ...`,
`df["ret"] = ...`) and returns that same frame, so the argument ends up equal to
the returned value. -/
def apply_delisting_returns_argAfter (df : List SecurityReturnRecord) :
    List SecurityReturnRecord :=
  apply_delisting_returns df

/-- One row of `apply_delisting_returns_alt`:
`df["dlret"] = df["dlret"].fillna(0)`, then `df["ret"] = df["ret"] + df["dlret"]`
(`NaN`-propagating addition), then
`df["ret"] = np.where(df["ret"].isna() & (df["dlret"] != 0), df["dlret"], df["ret"])`. -/
def adjustRecordAlt (r : SecurityReturnRecord) : SecurityReturnRecord :=
  let dlret1 : Option ℚ := some (r.dlret.getD 0)
  let ret1 : Option ℚ :=
    match r.ret, dlret1 with
    | some a, some b => some (a + b)
    | _, _ => none
  let ret2 : Option ℚ :=
    if ret1.isNone && !(dlret1 == some 0) then dlret1 else ret1
  { r with dlret := dlret1, ret := ret2 }

/-- `apply_delisting_returns_alt` as a row map. -/
def apply_delisting_returns_alt (df : List SecurityReturnRecord) :
    List SecurityReturnRecord :=
  df.map adjustRecordAlt

-- Helper lemmas about the delisting adjustment.

/-- The second `np.select` condition compares a 0/1 boolean column with 200, so it
never holds: the `-1.00` branch of the policy is unreachable. -/
theorem retCond2_eq_false (r : SecurityReturnRecord) : retCond2 r = false := by
  unfold retCond2
  split <;> decide

theorem retxCond2_eq_false (r : SecurityReturnRecord) : retxCond2 r = false := by
  unfold retxCond2
  split <;> decide

theorem imputeDlret_eq (r : SecurityReturnRecord) :
    imputeDlret r = if retCond1 r then some (-3/10) else r.dlret := by
  unfold imputeDlret
  rw [retCond2_eq_false]
  split <;> simp

theorem imputeDlretx_eq (r : SecurityReturnRecord) :
    imputeDlretx r = if retxCond1 r then some (-3/10) else r.dlretx := by
  unfold imputeDlretx
  rw [retxCond2_eq_false]
  split <;> simp

/-- Every element of the source's S1 code list is at least 200. -/
theorem s1List_ge_200 : ∀ c ∈ s1List, (200 : ℤ) ≤ c := by decide

/-- A raw index entry of a time-series table: either convertible by
`pd.to_datetime` to a date (an integer ordinal) or not. -/
inductive RawDate where
  | valid (d : ℤ)
  | invalid
deriving DecidableEq, Repr

/-- `pd.to_datetime` on one entry. -/
def parseDate : RawDate → Option ℤ
  | .valid d => some d
  | .invalid => none

/-- A raw tabular time series handed to `organize_time_series`: either a pandas
Series (`isSeries`, turned into a one-column frame by `to_frame`) or a frame;
`hasDateCol` says whether a column named `date` (case-insensitively) exists, in
which case `set_index("date")` promotes `dateCol` to the index, otherwise the
existing `index` is used.  `vals` are the remaining data cells of each row. -/
structure RawTable where
  isSeries : Bool
  hasDateCol : Bool
  dateCol : List RawDate
  index : List RawDate
  vals : List ℤ
deriving DecidableEq, Repr

/-- Python exceptions raised by the modelled code. -/
inductive PyError where
  | valueError
  | indexError
  | typeError
  | attributeError
deriving DecidableEq, Repr

/-- The index used after the `set_index("date")` step. -/
def effectiveIndex (t : RawTable) : List RawDate :=
  if t.hasDateCol then t.dateCol else t.index

/-- A normalized time-series table: rows of (date, value), indexed by date. -/
abbrev OrgTable := List (ℤ × ℤ)

/-- `time_series.sort_index()`: sort rows by date ascending (duplicates kept). -/
def sortByDate (rows : OrgTable) : OrgTable :=
  List.insertionSort (fun a b => a.1 ≤ b.1) rows

/-- `time_series.loc[:filter_end_date]` on a date-sorted frame: keep the rows
whose date is at most the bound (inclusive label slicing). -/
def locUpTo (endD : Option ℤ) (rows : OrgTable) : OrgTable :=
  match endD with
  | none => rows
  | some d => rows.filter (fun p => p.1 ≤ d)

/-- `time_series.loc[filter_start_date:]` on a date-sorted frame: keep the rows
whose date is at least the bound (inclusive label slicing). -/
def locFrom (startD : Option ℤ) (rows : OrgTable) : OrgTable :=
  match startD with
  | none => rows
  | some d => rows.filter (fun p => d ≤ p.1)

/-- `Dataset.organize_time_series(time_series, filter_start_date,
filter_end_date, enforce_not_none)`:

1. `None` input raises `ValueError` when `enforce_not_none`, else returns `None`;
2. a Series is turned into a frame (`to_frame` — no effect on index/values here);
3. a `date` column, when present, becomes the index;
4. the index is converted to dates, raising `ValueError` if conversion fails;
5. rows are sorted ascending by date;
6. rows after `filter_end_date` are dropped, then rows before
   `filter_start_date` are dropped (both bounds inclusive). -/
def organize_time_series (time_series : Option RawTable)
    (filter_start_date filter_end_date : Option ℤ) (enforce_not_none : Bool := false) :
    Except PyError (Option OrgTable) :=
  match time_series with
  | none =>
    if enforce_not_none then .error .valueError else .ok none
  | some t =>
    match (effectiveIndex t).mapM parseDate with
    | none => .error .valueError
    | some dates =>
      let rows : OrgTable := dates.zip t.vals
      let sorted := sortByDate rows
      let afterEnd := locUpTo filter_end_date sorted
      let afterStart := locFrom filter_start_date afterEnd
      .ok (some afterStart)

/-- State of the caller's table after a call to `organize_time_series`: for a
Series input `to_frame` makes a fresh frame, and for a frame with a `date`
column `set_index` does; in both cases later steps touch only the fresh object.
For a frame with no `date` column, `time_series.index = pd.to_datetime(...)`
reassigns the index of the caller's frame in place (and only when the
conversion succeeds — a failing conversion raises before assigning). -/
def organize_time_series_argAfter (t : RawTable) : RawTable :=
  if t.isSeries || t.hasDateCol then t
  else
    match t.index.mapM parseDate with
    | none => t
    | some dates => { t with index := dates.map RawDate.valid }

/-- Values storable in the `y_pred` attribute of a `Dataset` (besides `None`):
either a raw, unorganized table or an organized one. -/
inductive YPredVal where
  | raw (t : RawTable)
  | organized (t : OrgTable)
deriving DecidableEq, Repr

/-- The `Dataset` container.  `y_pred` is doubly optional: the outer layer says
whether the attribute exists at all (`from_organized_time_series` never creates
it), the inner layer is the stored Python value (possibly `None`). -/
structure Dataset where
  y : Option OrgTable
  X : Option OrgTable
  time_frequency : Option ℤ
  y_pred : Option (Option YPredVal)
deriving DecidableEq, Repr

/-- `Dataset.__init__`: organizes `y` with `enforce_not_none=True`, organizes
`X`, stores `time_frequency` and sets `y_pred = None`; an exception from either
`organize_time_series` call propagates. -/
def Dataset.init (y X : Option RawTable) (filter_start_date filter_end_date : Option ℤ)
    (time_frequency : Option ℤ := none) : Except PyError Dataset :=
  match organize_time_series y filter_start_date filter_end_date true with
  | .error e => .error e
  | .ok yv =>
    match organize_time_series X filter_start_date filter_end_date with
    | .error e => .error e
    | .ok xv =>
      .ok { y := yv, X := xv, time_frequency := time_frequency, y_pred := some none }

/-- `Dataset.from_organized_time_series`: built with `cls.__new__` and direct
attribute assignment, bypassing `__init__`; the `y_pred` attribute is never
assigned. -/
def Dataset.from_organized_time_series (y X : Option OrgTable)
    (time_frequency : Option ℤ := none) : Dataset :=
  { y := y, X := X, time_frequency := time_frequency, y_pred := none }

/-- `Dataset.create_from_y`. -/
def Dataset.create_from_y (y : Option OrgTable) (time_frequency : Option ℤ := none) :
    Dataset :=
  Dataset.from_organized_time_series y none time_frequency

/-- `Dataset.get_y_pred`: reading a never-assigned attribute raises
`AttributeError`. -/
def Dataset.get_y_pred (d : Dataset) : Except PyError (Option YPredVal) :=
  match d.y_pred with
  | none => .error .attributeError
  | some v => .ok v

/-- `Dataset.set_y_pred(y_pred, organize=False)`: when `organize` is true the
source assigns the organized series to `self.y_pred` (using `self.y.index[0]`
and `self.y.index[-1]` as bounds, which raises on a `None` or empty `y`), but
then unconditionally reassigns `self.y_pred = y_pred` with the raw argument. -/
def Dataset.set_y_pred (d : Dataset) (y_pred : Option RawTable) (organize : Bool := false) :
    Except PyError Dataset :=
  if organize then
    match d.y with
    | none => .error .typeError
    | some [] => .error .indexError
    | some (p :: ps) =>
      let first := p.1
      let last := ((p :: ps).getLast?.getD p).1
      match organize_time_series y_pred (some first) (some last) with
      | .error e => .error e
      | .ok orgv =>
        let d1 := { d with y_pred := some (orgv.map YPredVal.organized) }
        .ok { d1 with y_pred := some (y_pred.map YPredVal.raw) }
  else
    .ok { d with y_pred := some (y_pred.map YPredVal.raw) }

-- Further helper lemmas.

/-- Extensional description of the source's S1 code list. -/
theorem mem_s1List_iff (c : ℤ) :
    c ∈ s1List ↔ (c = 500 ∨ c = 520 ∨ c = 580 ∨ c = 584 ∨ (551 ≤ c ∧ c ≤ 574)) := by
  constructor
  · intro h
    rcases List.mem_append.1 h with h | h
    · have h4 : c = 500 ∨ c = 520 ∨ c = 580 ∨ c = 584 := by simpa using h
      omega
    · obtain ⟨i, hi, hc⟩ := List.mem_map.1 h
      rw [List.mem_range] at hi
      have hc' : 551 + (i : ℤ) = c := hc
      omega
  · rintro (rfl | rfl | rfl | rfl | ⟨h1, h2⟩)
    · decide
    · decide
    · decide
    · decide
    · refine List.mem_append.2 (Or.inr (List.mem_map.2 ⟨(c - 551).toNat, ?_, ?_⟩))
      · rw [List.mem_range]
        omega
      · show 551 + ((c - 551).toNat : ℤ) = c
        omega

theorem dlstcdInS1_some_iff (c : ℤ) :
    dlstcdInS1 (some c) = true ↔
      (c = 500 ∨ c = 520 ∨ c = 580 ∨ c = 584 ∨ (551 ≤ c ∧ c ≤ 574)) := by
  simp [dlstcdInS1, mem_s1List_iff]

theorem dlstcdInS1_lt_200 {c : ℤ} (h : c < 200) : dlstcdInS1 (some c) = false := by
  simp only [dlstcdInS1, decide_eq_false_iff_not]
  intro hc
  exact absurd (s1List_ge_200 c hc) (by omega)

theorem adjustRecord_dlret (r : SecurityReturnRecord) :
    (adjustRecord r).dlret = imputeDlret r := rfl

theorem adjustRecord_dlretx (r : SecurityReturnRecord) :
    (adjustRecord r).dlretx = imputeDlretx r := rfl

theorem adjustRecord_ret (r : SecurityReturnRecord) :
    (adjustRecord r).ret = r.ret.or (imputeDlret r) := rfl

theorem adjustRecord_retx (r : SecurityReturnRecord) :
    (adjustRecord r).retx = r.retx.or (imputeDlretx r) := rfl

theorem apply_delisting_returns_singleton (r : SecurityReturnRecord) :
    apply_delisting_returns [r] = [adjustRecord r] := rfl

-- Claim theorems.

/-- C1: the spec (and the source's own docstring) say that a record with a
missing delisting return and a non-null delisting code that is at least 200 and
outside S1 gets delisting return `-1.00` — in particular `dlstcd=400, dlret=NaN`
should become `dlret = -1.00`.  The code disagrees: because `&` binds tighter
than `>=`, the second `np.select` condition compares a 0/1 boolean column with
200 and is identically false, so the record with `dlstcd=400, dlret=NaN` keeps
`dlret = NaN` (and likewise for `dlretx`). -/
theorem apply_delisting_returns_full_loss_branch_unreachable :
    ((apply_delisting_returns
        [{ ret := none, retx := none, dlret := none, dlretx := none, dlstcd := some 400 }]).map
        SecurityReturnRecord.dlret = [none]
      ∧ (apply_delisting_returns
        [{ ret := none, retx := none, dlret := none, dlretx := none, dlstcd := some 400 }]).map
        SecurityReturnRecord.dlretx = [none])
    ∧ ∀ r : SecurityReturnRecord, retCond2 r = false ∧ retxCond2 r = false :=
  ⟨⟨rfl, rfl⟩, fun r => ⟨retCond2_eq_false r, retxCond2_eq_false r⟩⟩

/-- C2: a record whose `dlret` (resp. `dlretx`) is missing and whose `dlstcd`
lies in S1 = {500, 520, 580, 584} ∪ [551, 574] gets delisting return `-0.30`;
S1 has exactly that extension; records whose delisting field is present, or
whose `dlstcd` is null or below 200, keep their delisting field unchanged. -/
theorem apply_delisting_returns_s1_policy (r : SecurityReturnRecord) :
    (∀ c : ℤ, dlstcdInS1 (some c) = true ↔
        (c = 500 ∨ c = 520 ∨ c = 580 ∨ c = 584 ∨ (551 ≤ c ∧ c ≤ 574)))
    ∧ (r.dlret = none → dlstcdInS1 r.dlstcd = true →
        (apply_delisting_returns [r]).map SecurityReturnRecord.dlret = [some (-3/10)])
    ∧ (r.dlretx = none → dlstcdInS1 r.dlstcd = true →
        (apply_delisting_returns [r]).map SecurityReturnRecord.dlretx = [some (-3/10)])
    ∧ (r.dlret ≠ none →
        (apply_delisting_returns [r]).map SecurityReturnRecord.dlret = [r.dlret])
    ∧ (r.dlretx ≠ none →
        (apply_delisting_returns [r]).map SecurityReturnRecord.dlretx = [r.dlretx])
    ∧ ((r.dlstcd = none ∨ ∃ c, r.dlstcd = some c ∧ c < 200) →
        (apply_delisting_returns [r]).map SecurityReturnRecord.dlret = [r.dlret]
        ∧ (apply_delisting_returns [r]).map SecurityReturnRecord.dlretx = [r.dlretx]) := by
  refine ⟨dlstcdInS1_some_iff, ?_, ?_, ?_, ?_, ?_⟩
  · intro h1 h2
    simp [apply_delisting_returns, adjustRecord, imputeDlret_eq, retCond1, h1, h2]
  · intro h1 h2
    simp [apply_delisting_returns, adjustRecord, imputeDlretx_eq, retxCond1, h1, h2]
  · intro h1
    have : r.dlret.isNone = false := by
      cases hd : r.dlret
      · exact absurd hd h1
      · rfl
    simp [apply_delisting_returns, adjustRecord, imputeDlret_eq, retCond1, this]
  · intro h1
    have : r.dlretx.isNone = false := by
      cases hd : r.dlretx
      · exact absurd hd h1
      · rfl
    simp [apply_delisting_returns, adjustRecord, imputeDlretx_eq, retxCond1, this]
  · intro h1
    have hS1 : dlstcdInS1 r.dlstcd = false := by
      rcases h1 with h | ⟨c, hc, hlt⟩
      · rw [h]; rfl
      · rw [hc]; exact dlstcdInS1_lt_200 hlt
    constructor
    · simp [apply_delisting_returns, adjustRecord, imputeDlret_eq, retCond1, hS1]
    · simp [apply_delisting_returns, adjustRecord, imputeDlretx_eq, retxCond1, hS1]

/-- C2 witness: `dlstcd=560, dlret=NaN, dlretx=NaN` gets `dlret = dlretx = -0.30`;
a record with `dlret` and `dlretx` present and `dlstcd=100` keeps both fields. -/
theorem apply_delisting_returns_s1_policy_witness :
    ((apply_delisting_returns
        [{ ret := none, retx := none, dlret := none, dlretx := none, dlstcd := some 560 }]).map
        SecurityReturnRecord.dlret = [some (-3/10)]
      ∧ (apply_delisting_returns
        [{ ret := none, retx := none, dlret := none, dlretx := none, dlstcd := some 560 }]).map
        SecurityReturnRecord.dlretx = [some (-3/10)])
    ∧ ((apply_delisting_returns
        [{ ret := some 2, retx := some 2, dlret := some (7/10), dlretx := some (7/10),
           dlstcd := some 100 }]).map SecurityReturnRecord.dlret = [some (7/10)]
      ∧ (apply_delisting_returns
        [{ ret := some 2, retx := some 2, dlret := some (7/10), dlretx := some (7/10),
           dlstcd := some 100 }]).map SecurityReturnRecord.dlretx = [some (7/10)]) :=
  ⟨⟨(apply_delisting_returns_s1_policy
        { ret := none, retx := none, dlret := none, dlretx := none,
          dlstcd := some 560 }).2.1 rfl (by decide),
    (apply_delisting_returns_s1_policy
        { ret := none, retx := none, dlret := none, dlretx := none,
          dlstcd := some 560 }).2.2.1 rfl (by decide)⟩,
   (apply_delisting_returns_s1_policy
        { ret := some 2, retx := some 2, dlret := some (7/10), dlretx := some (7/10),
          dlstcd := some 100 }).2.2.2.2.2
      (Or.inr ⟨100, rfl, by omega⟩)⟩

/-- C3: after imputation, `ret` (resp. `retx`) is backfilled with the
post-imputation delisting return exactly when it is null: the final `ret` is
`fillna` of the original `ret` with the imputed `dlret`, a null `ret` becomes the
output `dlret`, and a present `ret` is unchanged. -/
theorem apply_delisting_returns_backfill (r : SecurityReturnRecord) :
    ((apply_delisting_returns [r]).map SecurityReturnRecord.ret
        = [r.ret.or (imputeDlret r)])
    ∧ ((apply_delisting_returns [r]).map SecurityReturnRecord.retx
        = [r.retx.or (imputeDlretx r)])
    ∧ (r.ret = none →
        (apply_delisting_returns [r]).map SecurityReturnRecord.ret
          = (apply_delisting_returns [r]).map SecurityReturnRecord.dlret)
    ∧ (∀ a : ℚ, r.ret = some a →
        (apply_delisting_returns [r]).map SecurityReturnRecord.ret = [some a])
    ∧ (∀ a : ℚ, r.retx = some a →
        (apply_delisting_returns [r]).map SecurityReturnRecord.retx = [some a]) := by
  refine ⟨rfl, rfl, ?_, ?_, ?_⟩
  · intro h
    simp [apply_delisting_returns, adjustRecord, h]
  · intro a h
    simp [apply_delisting_returns, adjustRecord, h]
  · intro a h
    simp [apply_delisting_returns, adjustRecord, h]

/-- C3 witness: `ret=NaN, dlstcd=560` (so the imputed `dlret` is `-0.30`) ends
with `ret` equal to the output `dlret`, i.e. `-0.30`; `ret=0.05` with `dlstcd`
and `dlret` null stays `0.05`. -/
theorem apply_delisting_returns_backfill_witness :
    ((apply_delisting_returns
        [{ ret := none, retx := none, dlret := none, dlretx := none, dlstcd := some 560 }]).map
        SecurityReturnRecord.ret
      = (apply_delisting_returns
        [{ ret := none, retx := none, dlret := none, dlretx := none, dlstcd := some 560 }]).map
        SecurityReturnRecord.dlret)
    ∧ ((apply_delisting_returns
        [{ ret := some (1/20), retx := none, dlret := none, dlretx := none, dlstcd := none }]).map
        SecurityReturnRecord.ret = [some (1/20)]) :=
  ⟨(apply_delisting_returns_backfill
      { ret := none, retx := none, dlret := none, dlretx := none,
        dlstcd := some 560 }).2.2.1 rfl,
   (apply_delisting_returns_backfill
      { ret := some (1/20), retx := none, dlret := none, dlretx := none,
        dlstcd := none }).2.2.2.1 (1/20) rfl⟩

/-- C9: `apply_delisting_returns_alt` first replaces an absent `dlret` by 0,
then sets `ret` to `ret + dlret` (null-propagating), and finally overrides a
still-null `ret` with `dlret` when `dlret` is non-zero; when the sum is null and
`dlret` is 0, `ret` stays null. -/
theorem apply_delisting_returns_alt_spec (r : SecurityReturnRecord) :
    ((apply_delisting_returns_alt [r]).map SecurityReturnRecord.dlret
        = [some (r.dlret.getD 0)])
    ∧ (∀ a : ℚ, r.ret = some a →
        (apply_delisting_returns_alt [r]).map SecurityReturnRecord.ret
          = [some (a + r.dlret.getD 0)])
    ∧ (r.ret = none → r.dlret.getD 0 ≠ 0 →
        (apply_delisting_returns_alt [r]).map SecurityReturnRecord.ret
          = [some (r.dlret.getD 0)])
    ∧ (r.ret = none → r.dlret.getD 0 = 0 →
        (apply_delisting_returns_alt [r]).map SecurityReturnRecord.ret = [none]) := by
  refine ⟨rfl, ?_, ?_, ?_⟩
  · intro a h
    simp [apply_delisting_returns_alt, adjustRecordAlt, h]
  · intro h1 h2
    simp [apply_delisting_returns_alt, adjustRecordAlt, h1, h2]
  · intro h1 h2
    simp [apply_delisting_returns_alt, adjustRecordAlt, h1, h2]

/-- C9 witness: `ret=NaN, dlret=1` ends with `ret = 1` (override branch);
`ret=NaN, dlret=NaN` ends with `ret` null (`dlret` filled to 0); `ret=5,
dlret=NaN` ends with `ret = 5 + 0 = 5`. -/
theorem apply_delisting_returns_alt_spec_witness :
    ((apply_delisting_returns_alt
        [{ ret := none, retx := none, dlret := some 1, dlretx := none, dlstcd := none }]).map
        SecurityReturnRecord.ret = [some 1])
    ∧ ((apply_delisting_returns_alt
        [{ ret := none, retx := none, dlret := none, dlretx := none, dlstcd := none }]).map
        SecurityReturnRecord.ret = [none])
    ∧ ((apply_delisting_returns_alt
        [{ ret := some 5, retx := none, dlret := none, dlretx := none, dlstcd := none }]).map
        SecurityReturnRecord.ret = [some 5]) := by
  refine ⟨(apply_delisting_returns_alt_spec
      { ret := none, retx := none, dlret := some 1, dlretx := none,
        dlstcd := none }).2.2.1 rfl (by simp),
    (apply_delisting_returns_alt_spec
      { ret := none, retx := none, dlret := none, dlretx := none,
        dlstcd := none }).2.2.2 rfl rfl, ?_⟩
  have h := (apply_delisting_returns_alt_spec
      { ret := some 5, retx := none, dlret := none, dlretx := none,
        dlstcd := none }).2.1 5 rfl
  simpa using h

/-- C7: `organize_time_series(None, ..., enforce_not_none=True)` raises
`ValueError` for every choice of bounds, so `Dataset.__init__` with a null `y`
always fails with `ValueError`; a null series without enforcement returns null
without error. -/
theorem organize_time_series_none_policy (s e : Option ℤ) (X : Option RawTable)
    (tf : Option ℤ) :
    organize_time_series none s e true = .error .valueError
    ∧ Dataset.init none X s e tf = .error .valueError
    ∧ organize_time_series none s e false = .ok none :=
  ⟨rfl, rfl, rfl⟩

/-- C4: `Dataset.set_y_pred` stores the raw argument verbatim: with
`organize=False` it is stored as given, and with `organize=True` the organized
value is computed and assigned but then unconditionally overwritten by the raw
argument, so whenever the call returns, the stored `y_pred` is the raw value. -/
theorem set_y_pred_stores_raw (d : Dataset) (yp : Option RawTable) :
    Dataset.set_y_pred d yp false = .ok { d with y_pred := some (yp.map YPredVal.raw) }
    ∧ (∀ d' : Dataset, Dataset.set_y_pred d yp true = .ok d' →
        d'.y_pred = some (yp.map YPredVal.raw)) := by
  refine ⟨rfl, ?_⟩
  intro d' h
  unfold Dataset.set_y_pred at h
  rw [if_pos rfl] at h
  split at h
  · exact Except.noConfusion h
  · exact Except.noConfusion h
  · dsimp only at h
    split at h
    · exact Except.noConfusion h
    · injection h with h2
      subst h2
      rfl

/-- C4 witness: on a dataset with `y = [(0, 0)]`, `set_y_pred` with
`organize=True` and an empty raw frame as argument returns a dataset whose
stored `y_pred` is the raw frame. -/
theorem set_y_pred_stores_raw_witness :
    ({ y := some [((0 : ℤ), (0 : ℤ))], X := none, time_frequency := none,
        y_pred := some (some (YPredVal.raw
          { isSeries := false, hasDateCol := false, dateCol := [], index := [],
            vals := [] })) } : Dataset).y_pred
      = some (some (YPredVal.raw
          { isSeries := false, hasDateCol := false, dateCol := [], index := [],
            vals := [] })) :=
  (set_y_pred_stores_raw
      { y := some [((0 : ℤ), (0 : ℤ))], X := none, time_frequency := none,
        y_pred := some none }
      (some { isSeries := false, hasDateCol := false, dateCol := [], index := [],
              vals := [] })).2
    { y := some [((0 : ℤ), (0 : ℤ))], X := none, time_frequency := none,
      y_pred := some (some (YPredVal.raw
        { isSeries := false, hasDateCol := false, dateCol := [], index := [],
          vals := [] })) }
    rfl

/-- C10: a `Dataset` built via `from_organized_time_series` (or `create_from_y`)
never has its `y_pred` attribute created, so `get_y_pred` fails with
`AttributeError` until `set_y_pred` succeeds; a `Dataset` built via `__init__`
has `y_pred = None` from the start. -/
theorem dataset_y_pred_initialization (y X : Option OrgTable) (tf : Option ℤ)
    (y0 X0 : Option RawTable) (s e : Option ℤ) :
    (Dataset.from_organized_time_series y X tf).y_pred = none
    ∧ Dataset.get_y_pred (Dataset.from_organized_time_series y X tf)
        = .error .attributeError
    ∧ Dataset.get_y_pred (Dataset.create_from_y y tf) = .error .attributeError
    ∧ (∀ (d d' : Dataset) (yp : Option RawTable) (org : Bool),
        Dataset.set_y_pred d yp org = .ok d' →
        Dataset.get_y_pred d' = .ok (yp.map YPredVal.raw))
    ∧ (∀ d : Dataset, Dataset.init y0 X0 s e tf = .ok d →
        d.y_pred = some none ∧ Dataset.get_y_pred d = .ok none) := by
  refine ⟨rfl, rfl, rfl, ?_, ?_⟩
  · intro d d' yp org h
    unfold Dataset.set_y_pred at h
    split at h
    · split at h
      · exact Except.noConfusion h
      · exact Except.noConfusion h
      · dsimp only at h
        split at h
        · exact Except.noConfusion h
        · injection h with h2
          subst h2
          rfl
    · injection h with h2
      subst h2
      rfl
  · intro d h
    unfold Dataset.init at h
    split at h
    · exact Except.noConfusion h
    · split at h
      · exact Except.noConfusion h
      · injection h with h2
        subst h2
        exact ⟨rfl, rfl⟩

/-- C10 witness: after `set_y_pred(None)` on a dataset built from an organized
series, `get_y_pred` returns `None`; `__init__` on an empty raw frame yields
`y_pred = None` and `get_y_pred` returns `None`. -/
theorem dataset_y_pred_initialization_witness :
    Dataset.get_y_pred
        { y := some ([] : OrgTable), X := none, time_frequency := none,
          y_pred := some none } = .ok none
    ∧ (({ y := some ([] : OrgTable), X := none, time_frequency := none,
          y_pred := some none } : Dataset).y_pred = some none
        ∧ Dataset.get_y_pred
            { y := some ([] : OrgTable), X := none, time_frequency := none,
              y_pred := some none } = .ok none) :=
  ⟨(dataset_y_pred_initialization (some []) none none
        (some { isSeries := false, hasDateCol := false, dateCol := [], index := [],
                vals := [] }) none none none).2.2.2.1
      (Dataset.from_organized_time_series (some []) none none)
      { y := some ([] : OrgTable), X := none, time_frequency := none,
        y_pred := some none }
      none false rfl,
   (dataset_y_pred_initialization (some []) none none
        (some { isSeries := false, hasDateCol := false, dateCol := [], index := [],
                vals := [] }) none none none).2.2.2.2
      { y := some ([] : OrgTable), X := none, time_frequency := none,
        y_pred := some none }
      rfl⟩

-- Helper lemmas about sorting and filtering.

theorem sortByDate_pairwise_le (l : OrgTable) :
    (sortByDate l).Pairwise (fun a b : ℤ × ℤ => a.1 ≤ b.1) := by
  haveI : IsTotal (ℤ × ℤ) (fun a b : ℤ × ℤ => a.1 ≤ b.1) :=
    ⟨fun a b => le_total a.1 b.1⟩
  haveI : IsTrans (ℤ × ℤ) (fun a b : ℤ × ℤ => a.1 ≤ b.1) :=
    ⟨fun _ _ _ h1 h2 => le_trans h1 h2⟩
  have h := List.sorted_insertionSort (fun a b : ℤ × ℤ => a.1 ≤ b.1) l
  unfold List.Sorted at h
  exact h

theorem locUpTo_pairwise {R : ℤ × ℤ → ℤ × ℤ → Prop} (e : Option ℤ) {l : OrgTable}
    (h : l.Pairwise R) : (locUpTo e l).Pairwise R := by
  cases e with
  | none => exact h
  | some d => exact h.filter _

theorem locFrom_pairwise {R : ℤ × ℤ → ℤ × ℤ → Prop} (s : Option ℤ) {l : OrgTable}
    (h : l.Pairwise R) : (locFrom s l).Pairwise R := by
  cases s with
  | none => exact h
  | some d => exact h.filter _

theorem pairwise_lt_of_le_nodup {l : OrgTable}
    (h1 : l.Pairwise (fun a b : ℤ × ℤ => a.1 ≤ b.1))
    (h2 : (l.map Prod.fst).Nodup) :
    l.Pairwise (fun a b : ℤ × ℤ => a.1 < b.1) := by
  rw [List.Nodup, List.pairwise_map] at h2
  exact (h1.and h2).imp (fun h => lt_of_le_of_ne h.1 h.2)

/-- Successful runs of `organize_time_series` on a present table are exactly the
sort-then-filter pipeline on the parsed effective index. -/
theorem organize_time_series_some_eq {t : RawTable} {s e : Option ℤ} {enf : Bool}
    {rows : OrgTable}
    (h : organize_time_series (some t) s e enf = .ok (some rows)) :
    ∃ dates : List ℤ, (effectiveIndex t).mapM parseDate = some dates ∧
      rows = locFrom s (locUpTo e (sortByDate (dates.zip t.vals))) := by
  unfold organize_time_series at h
  dsimp only at h
  split at h
  · exact Except.noConfusion h
  · rename_i dates heq
    injection h with h2
    injection h2 with h3
    exact ⟨dates, heq, h3.symm⟩

-- More claim theorems.

/-- C5: the claim says the output index of `organize_time_series` is strictly
ascending with no duplicate dates for every valid input; the code only sorts
(`sort_index`) and never deduplicates, so an input with a repeated date yields a
repeated date in the output. -/
theorem organize_time_series_sorted_counterexample :
    organize_time_series
        (some { isSeries := false, hasDateCol := false, dateCol := [],
                index := [RawDate.valid 5, RawDate.valid 5], vals := [1, 2] })
        none none false
      = .ok (some [(5, 1), (5, 2)])
    ∧ ¬ List.Pairwise (fun a b : ℤ × ℤ => a.1 < b.1) [((5 : ℤ), (1 : ℤ)), (5, 2)]
    ∧ ¬ (([((5 : ℤ), (1 : ℤ)), (5, 2)]).map Prod.fst).Nodup := by
  refine ⟨rfl, ?_, ?_⟩ <;> decide

/-- C5 (amended): for every valid input the output index of
`organize_time_series` is sorted ascending (non-strictly: duplicate dates are
retained); it is strictly ascending whenever the output dates are distinct. -/
theorem organize_time_series_sorted (t : RawTable) (s e : Option ℤ) (enf : Bool)
    (rows : OrgTable)
    (h : organize_time_series (some t) s e enf = .ok (some rows)) :
    rows.Pairwise (fun a b : ℤ × ℤ => a.1 ≤ b.1)
    ∧ ((rows.map Prod.fst).Nodup → rows.Pairwise (fun a b : ℤ × ℤ => a.1 < b.1)) := by
  obtain ⟨dates, hp, rfl⟩ := organize_time_series_some_eq h
  refine ⟨locFrom_pairwise s (locUpTo_pairwise e (sortByDate_pairwise_le _)), ?_⟩
  intro hnd
  exact pairwise_lt_of_le_nodup
    (locFrom_pairwise s (locUpTo_pairwise e (sortByDate_pairwise_le _))) hnd

/-- C5 witness: the input with dates `[3, 1]` organizes to `[(1, 20), (3, 10)]`,
whose index is (strictly) ascending. -/
theorem organize_time_series_sorted_witness :
    ([((1 : ℤ), (20 : ℤ)), (3, 10)]).Pairwise (fun a b : ℤ × ℤ => a.1 ≤ b.1)
    ∧ ([((1 : ℤ), (20 : ℤ)), (3, 10)]).Pairwise (fun a b : ℤ × ℤ => a.1 < b.1) :=
  ⟨(organize_time_series_sorted
      { isSeries := false, hasDateCol := false, dateCol := [],
        index := [RawDate.valid 3, RawDate.valid 1], vals := [10, 20] }
      none none false [(1, 20), (3, 10)] rfl).1,
   (organize_time_series_sorted
      { isSeries := false, hasDateCol := false, dateCol := [],
        index := [RawDate.valid 3, RawDate.valid 1], vals := [10, 20] }
      none none false [(1, 20), (3, 10)] rfl).2 (by decide)⟩

/-- C6: `organize_time_series` filters inclusively — the output is the sorted
table with rows after `end_date` dropped first (when given), then rows before
`start_date` dropped (when given); a row is retained iff its date is at most
`end_date` and at least `start_date`, so rows exactly at either bound stay. -/
theorem organize_time_series_inclusive_filtering (t : RawTable) (s e : Option ℤ)
    (enf : Bool) (dates : List ℤ)
    (hp : (effectiveIndex t).mapM parseDate = some dates)
    (rows : OrgTable)
    (h : organize_time_series (some t) s e enf = .ok (some rows)) :
    rows = locFrom s (locUpTo e (sortByDate (dates.zip t.vals)))
    ∧ ∀ p : ℤ × ℤ, p ∈ rows ↔
        (p ∈ sortByDate (dates.zip t.vals)
          ∧ (∀ d, e = some d → p.1 ≤ d)
          ∧ (∀ d, s = some d → d ≤ p.1)) := by
  obtain ⟨dates', hp', hrows⟩ := organize_time_series_some_eq h
  rw [hp] at hp'
  injection hp' with hd
  subst hd
  subst hrows
  refine ⟨rfl, ?_⟩
  intro p
  cases s <;> cases e <;>
    simp [locFrom, locUpTo, List.mem_filter, and_assoc] <;> tauto

/-- C6 witness: with dates `[1, 2, 3]`, `start_date = 2` and `end_date = 3`,
the rows exactly at the bounds, `(2, 20)` and `(3, 30)`, are both retained. -/
theorem organize_time_series_inclusive_filtering_witness :
    (((2 : ℤ), (20 : ℤ)) ∈ ([((2 : ℤ), (20 : ℤ)), (3, 30)] : OrgTable))
    ∧ (((3 : ℤ), (30 : ℤ)) ∈ ([((2 : ℤ), (20 : ℤ)), (3, 30)] : OrgTable)) := by
  constructor
  · exact ((organize_time_series_inclusive_filtering
        { isSeries := false, hasDateCol := false, dateCol := [],
          index := [RawDate.valid 1, RawDate.valid 2, RawDate.valid 3],
          vals := [10, 20, 30] }
        (some 2) (some 3) false [1, 2, 3] rfl [(2, 20), (3, 30)] rfl).2
      (2, 20)).mpr
      ⟨by decide, by intro d hd; injection hd with h1; omega,
        by intro d hd; injection hd with h1; omega⟩
  · exact ((organize_time_series_inclusive_filtering
        { isSeries := false, hasDateCol := false, dateCol := [],
          index := [RawDate.valid 1, RawDate.valid 2, RawDate.valid 3],
          vals := [10, 20, 30] }
        (some 2) (some 3) false [1, 2, 3] rfl [(2, 20), (3, 30)] rfl).2
      (3, 30)).mpr
      ⟨by decide, by intro d hd; injection hd with h1; omega,
        by intro d hd; injection hd with h1; omega⟩

/-- C8: the claim says both core functions leave the caller's input object
unchanged; in fact `apply_delisting_returns` assigns columns on its argument and
returns that same frame, so a frame that the policy changes (here
`dlstcd=560, dlret=NaN`) is mutated in the caller's hands. -/
theorem apply_delisting_returns_not_pure_counterexample :
    apply_delisting_returns_argAfter
        [{ ret := none, retx := none, dlret := none, dlretx := none, dlstcd := some 560 }]
      ≠ [{ ret := none, retx := none, dlret := none, dlretx := none, dlstcd := some 560 }] := by
  decide

/-- C8 (amended): both functions are deterministic, stateless transformations
acting row-wise on the batch, but they are not free of side effects on their
argument: after `apply_delisting_returns` the caller's frame equals the returned
(possibly changed) frame, and `organize_time_series` leaves its argument
unchanged only for Series inputs or frames with a `date` column (otherwise the
index is reassigned in place). -/
theorem delisting_and_organize_effects (df : List SecurityReturnRecord) (t : RawTable) :
    apply_delisting_returns_argAfter df = apply_delisting_returns df
    ∧ apply_delisting_returns df = df.map adjustRecord
    ∧ (t.isSeries = true ∨ t.hasDateCol = true → organize_time_series_argAfter t = t) := by
  refine ⟨rfl, rfl, ?_⟩
  intro h
  unfold organize_time_series_argAfter
  have hb : (t.isSeries || t.hasDateCol) = true := by
    rcases h with h | h <;> simp [h]
  rw [if_pos hb]

/-- C8 witness: a Series input is left unchanged by `organize_time_series`. -/
theorem delisting_and_organize_effects_witness :
    organize_time_series_argAfter
        { isSeries := true, hasDateCol := false, dateCol := [], index := [], vals := [] }
      = { isSeries := true, hasDateCol := false, dateCol := [], index := [], vals := [] } :=
  (delisting_and_organize_effects []
      { isSeries := true, hasDateCol := false, dateCol := [], index := [], vals := [] }).2.2
    (Or.inl rfl)
